import Mathlib

/-!
Shallow embedding of the transfer-manager core of the `esrally.storage`
package (`_manager.py`, `_config.py`) and of the actor request plumbing
(`actor.py`) of the rally repository.

Conventions used throughout:
* Python dicts keyed by destination path become association lists
  `List (String × Transfer)` with pairwise-distinct keys (Python dicts keep
  insertion order).
* Python ints are `Int`; the one floor division that occurs acts on clamped
  nonnegative operands and is modelled with `Nat` division, which agrees with
  Python `//` there.
* Python floats that only take part in order comparisons (`monitor_interval`,
  durations, progress ratios) are modelled as `Rat`.
* Side effects (HEAD probes, worker starts, log lines, timer arming, messages
  sent) are recorded in an explicit event trace; a raised exception shows up
  as the `error` field of a handler result, with the state as it was when the
  exception escaped the handler.
-/

namespace Storage

/-- Configuration slice of `StorageConfig` (src/esrally/storage/_config.py)
consumed by the transfer manager.  Defaults mirror the module constants
`LOCAL_DIR`, `MAX_CONNECTIONS`, `MULTIPART_SIZE` and `MONITOR_INTERVAL`. -/
structure StorageConfig where
  local_dir : String := "~/.rally/storage"
  max_connections : Int := 4
  multipart_size : Int := 8 * 1024 * 1024
  monitor_interval : Rat := 2
  deriving Repr, DecidableEq

/-- Response metadata returned by `Client.head` (the `Head` dataclass of the
storage adapter layer); only the fields read by `_manager.py` are kept. -/
structure Head where
  url : String
  content_length : Option Int := none
  crc32c : Option String := none
  deriving Repr, DecidableEq

/-- The `Get` request dataclass of src/esrally/storage/_manager.py. -/
structure Get where
  url : String
  path : Option String := none
  expected_size : Option Int := none
  deriving Repr, DecidableEq

/-- Observable fields of a `Transfer` object (class `Transfer` lives in
`esrally/storage/_transfer.py`, outside the given sources; `_manager.py` only
reads the fields below and calls `save_status`/`start`/`close`/`info`, which
are recorded as trace events). `done_size` stands for `transfer.done.size`. -/
structure Transfer where
  url : String
  path : String
  document_length : Option Int := none
  finished : Bool := false
  max_connections : Int := 0
  errors : List String := []
  done_size : Int := 0
  duration : Rat := 0
  progress : Option Rat := none
  average_speed : Option Rat := none
  deriving Repr, DecidableEq

/-- The `TransferStatus` dataclass of src/esrally/storage/_manager.py. -/
structure TransferStatus where
  url : String
  path : String
  finished : Bool := false
  size : Option Int := none
  transferred : Option Int := none
  duration : Rat := 0
  progress : Option Rat := none
  average_speed : Option Rat := none
  deriving Repr, DecidableEq

/-- The `TransferStatus(...)` value built at the end of
`TransferActor.receiveMsg_Get` from the transfer's current fields. -/
def Transfer.status (tr : Transfer) (url path : String) : TransferStatus :=
  { url := url
    path := path
    finished := tr.finished
    size := tr.document_length
    transferred := some tr.done_size
    duration := tr.duration
    progress := tr.progress
    average_speed := tr.average_speed }

/-- Trace events recording the side effects performed by the supervisor:
HEAD probes through the client, construction of a `Transfer` (which opens or
creates its destination file), calls into a transfer, log lines, timer arming
and messages sent back to the requester. -/
inductive Event where
  | headRequest (url : String)
  | transferConstructed (path : String)
  | setMaxConnections (path : String) (value : Int)
  | saveStatus (path : String)
  | startTransfer (path : String)
  | logSummary
  | clientMonitor
  | wakeupAfter (delay : Rat) (timerId : Nat) (interval : Rat)
  | makeDirs (dir : String)
  | sendError (err : String)
  | sendStatus (st : TransferStatus)
  deriving Repr, DecidableEq

/-- Events that perform network input/output: a HEAD probe through the
client, or starting a transfer (which submits range-GET fetch tasks). -/
def Event.isNetwork : Event → Bool
  | .headRequest _ => true
  | .startTransfer _ => true
  | _ => false

/-- State of the `TransferActor` supervisor: its configuration, the
insertion-ordered `transfers` dict keyed by canonical destination path, the
current `timer_id`, and the `max_workers` value reported by its executor
(`None` or `0` are both falsy in the Python expression `max_workers or 1`). -/
structure TransferActor where
  cfg : StorageConfig := {}
  transfers : List (String × Transfer) := []
  timer_id : Nat := 0
  executor_max_workers : Option Int := none
  deriving Repr, DecidableEq

/-- Python dict lookup `self.transfers.get(path)` on the association list. -/
def dictGet (m : List (String × Transfer)) (k : String) : Option Transfer :=
  match m.find? (fun p => p.1 == k) with
  | some p => some p.2
  | none => none

/-- Python dict assignment `self.transfers[k] = v`: replaces the value in
place when the key exists, appends otherwise (insertion order preserved). -/
def dictInsert (m : List (String × Transfer)) (k : String) (v : Transfer) :
    List (String × Transfer) :=
  if (m.find? (fun p => p.1 == k)).isSome then
    m.map (fun p => if p.1 == k then (k, v) else p)
  else m ++ [(k, v)]

/-- The Python expression `x or 1` on `self.executor.max_workers`, whose
value is an optional int (`None` and `0` are falsy). -/
def orOne : Option Int → Int
  | none => 1
  | some v => if v = 0 then 1 else v

/-- The Python expression `max(1, self.executor.max_workers or 1)` from the
`TransferActor.max_connections` property, as a natural number (its value is
always at least 1). -/
def effective_max_workers (mw : Option Int) : Nat := (max 1 (orOne mw)).toNat

/-- The `TransferActor.max_connections` property
(src/esrally/storage/_manager.py lines 259-266): the configured
`max_connections`, clamped when transfers are live to
`max_workers // number_of_transfers + 1` with `max_workers` taken as at
least 1.  Python `//` on these nonnegative operands is `Nat` division. -/
def TransferActor.max_connections (s : TransferActor) : Int :=
  let mc := s.cfg.max_connections
  let n := s.transfers.length
  if 0 < n then
    min mc ((effective_max_workers s.executor_max_workers / n + 1 : Nat) : Int)
  else mc

/-- POSIX `os.path.join(a, b)` for two arguments: an absolute second
component replaces the first, otherwise the components are glued with a
single separator. -/
def joinPath (a b : String) : String :=
  if b.data.head? = some '/' then b
  else if a.data = [] ∨ a.data.getLast? = some '/' then a ++ b
  else a ++ "/" ++ b

/-- POSIX `os.path.expanduser`, parametrised by the home directory: a
leading `~` followed by nothing or by a separator is replaced by `home` with
its trailing separators stripped (falling back to the root path when
everything cancels); the `~username` form, which consults the password
database, is outside this model and returned unchanged. -/
def expanduser (home path : String) : String :=
  match path.data with
  | '~' :: rest =>
    if rest = [] ∨ rest.head? = some '/' then
      let h := (home.data.reverse.dropWhile (fun c => c = '/')).reverse
      let r := h ++ rest
      if r = [] then String.mk ['/'] else String.mk r
    else path
  | _ => path

/-- Python `str.split` on a one-character separator. -/
def splitOnChar (c : Char) : List Char → List (List Char)
  | [] => [[]]
  | x :: xs =>
    match splitOnChar c xs with
    | [] => [[]]
    | y :: ys => if x = c then [] :: y :: ys else (x :: y) :: ys

/-- Component loop of POSIX `os.path.normpath`: drops empty and `.`
components and resolves `..` against the accumulated components (kept
reversed here), keeping leading `..`s only for relative paths. -/
def normpathComps (absolute : Bool) :
    List (List Char) → List (List Char) → List (List Char)
  | [], acc => acc.reverse
  | c :: rest, acc =>
    if c = [] ∨ c = ['.'] then normpathComps absolute rest acc
    else if c ≠ ['.', '.'] then normpathComps absolute rest (c :: acc)
    else
      match acc with
      | [] =>
        if absolute then normpathComps absolute rest []
        else normpathComps absolute rest [c]
      | a :: as_ =>
        if a = ['.', '.'] then normpathComps absolute rest (c :: a :: as_)
        else normpathComps absolute rest as_

/-- Python `'/'.join(components)` on character lists. -/
def joinComps (sep : Char) : List (List Char) → List Char
  | [] => []
  | [x] => x
  | x :: xs => x ++ sep :: joinComps sep xs

/-- POSIX `os.path.normpath`: collapses separators and `.`/`..` components,
preserving one or two leading slashes as the standard prescribes. -/
def normpath (p : String) : String :=
  if p.data = [] then "."
  else
    let slashes : Nat :=
      match p.data with
      | '/' :: '/' :: '/' :: _ => 1
      | '/' :: '/' :: _ => 2
      | '/' :: _ => 1
      | _ => 0
    let comps := normpathComps (0 < slashes) (splitOnChar '/' p.data) []
    let res := List.replicate slashes '/' ++ joinComps '/' comps
    if res = [] then "." else String.mk res

/-- Splits a character list around the first occurrence of the pattern,
returning the parts before and after it, or `none` when it is absent. -/
def splitFirstSub (pat : List Char) : List Char → Option (List Char × List Char)
  | [] => none
  | x :: xs =>
    if pat.isPrefixOf (x :: xs) then some ([], (x :: xs).drop pat.length)
    else
      match splitFirstSub pat xs with
      | none => none
      | some (b, a) => some (x :: b, a)

/-- Path component of a URL as computed by `urllib.parse.urlparse(url).path`,
modelled for the URL shapes the storage layer handles: fragment and query are
stripped, and for `scheme://netloc/...` URLs the remainder starting at the
first slash after the netloc is returned (empty when the URL has no path);
a URL without `://` is its own path. -/
def urlparsePath (url : String) : String :=
  let noFrag := url.data.takeWhile (fun c => c ≠ '#')
  let noQuery := noFrag.takeWhile (fun c => c ≠ '?')
  match splitFirstSub [':', '/', '/'] noQuery with
  | none => String.mk noQuery
  | some (_, after) => String.mk (after.dropWhile (fun c => c ≠ '/'))

/-- The `StorageConfig.local_path` helper
(src/esrally/storage/_config.py lines 68-73): the default path joins
`local_dir` with the path component of the URL, and the result is
canonicalised with `expanduser` and `normpath`; `none` stands for the
`ValueError` raised when neither path nor url is given. -/
def StorageConfig.local_path (cfg : StorageConfig) (home : String)
    (path : Option String) (url : Option String) : Option String :=
  match path with
  | some p => some (normpath (expanduser home p))
  | none =>
    match url with
    | none => none
    | some u => some (normpath (expanduser home (joinPath cfg.local_dir (urlparsePath u))))

/-- Destination path computed at the top of `TransferActor.receiveMsg_Get`
(src/esrally/storage/_manager.py lines 217-222): when the request has no
path it is `os.path.join(cfg.local_dir, url)` on the full URL string, and
the result is canonicalised with `expanduser` and `normpath`. -/
def get_request_path (cfg : StorageConfig) (home : String) (req : Get) : String :=
  let path0 :=
    match req.path with
    | none => joinPath cfg.local_dir req.url
    | some p => p
  normpath (expanduser home path0)

/-- Per-transfer body of the loop in `TransferActor.update_transfers`
(src/esrally/storage/_manager.py lines 195-204): assign the freshly computed
`max_connections`, then `save_status()`, then `start()`. -/
def tickBlock (budget : Int) (p : String × Transfer) : List Event :=
  [Event.setMaxConnections p.1 budget, Event.saveStatus p.1,
   Event.startTransfer p.1]

/-- The `TransferActor.update_transfers` method
(src/esrally/storage/_manager.py lines 186-207): drop finished transfers,
return early when none remain, otherwise recompute the per-transfer budget
on the filtered map, then for each transfer assign it, save the status and
start the transfer, and finally log the per-transfer summary line. -/
def TransferActor.update_transfers (s : TransferActor) :
    TransferActor × List Event :=
  let remaining := s.transfers.filter fun p => !p.2.finished
  let s1 : TransferActor := { s with transfers := remaining }
  if remaining.isEmpty then (s1, [])
  else
    let budget := s1.max_connections
    let s2 : TransferActor :=
      { s1 with
        transfers := remaining.map fun p =>
          (p.1, { p.2 with max_connections := budget }) }
    (s2, (remaining.map (tickBlock budget)).flatten ++ [Event.logSummary])

/-- The `TransferActor.start_timer` method: increment `timer_id` and arm an
immediate wakeup carrying `(timer_id, interval)` as payload. -/
def TransferActor.start_timer (s : TransferActor) (interval : Rat) :
    TransferActor × List Event :=
  let s1 : TransferActor := { s with timer_id := s.timer_id + 1 }
  (s1, [Event.wakeupAfter 0 s1.timer_id interval])

/-- The `TransferActor.stop_timer` method: set `timer_id` to 0 so pending
wakeups from any previously armed timer chain are ignored. -/
def TransferActor.stop_timer (s : TransferActor) : TransferActor :=
  { s with timer_id := 0 }

/-- The `TransferActor.receiveMsg_WakeupMessage` handler
(src/esrally/storage/_manager.py lines 178-184): a wakeup whose payload
timer id differs from the current `timer_id` does nothing; otherwise run
`update_transfers`, call `client.monitor()` and re-arm the timer with the
same payload after `interval` seconds. -/
def TransferActor.receiveMsg_WakeupMessage (s : TransferActor)
    (payload : Nat × Rat) : TransferActor × List Event :=
  let timer_id := payload.1
  let interval := payload.2
  if timer_id ≠ s.timer_id then (s, [])
  else
    let upd := s.update_transfers
    (upd.1, upd.2 ++ [Event.clientMonitor, Event.wakeupAfter interval timer_id interval])

/-- The `ValueError`s raised by `TransferActor.configure_actor`
(src/esrally/storage/_manager.py lines 144-151), one per rejected
configuration field. -/
inductive ConfigureError where
  | invalidMaxConnections (value : Int)
  | invalidMultipartSize (value : Int)
  | invalidMonitorInterval (value : Rat)
  deriving Repr, DecidableEq

/-- Result of running `TransferActor.configure_actor`: the state and trace
produced, plus the `ValueError` when the configuration was rejected (in
which case the state is as it was when the exception escaped). -/
structure ConfigureResult where
  state : TransferActor
  events : List Event := []
  error : Option ConfigureError := none
  deriving Repr, DecidableEq

/-- The `TransferActor.configure_actor` method
(src/esrally/storage/_manager.py lines 142-156): reject configurations with
`max_connections < 1`, `multipart_size` below 1 MiB or a non-positive
`monitor_interval` by raising `ValueError`; otherwise create the
user-expanded `local_dir` when it does not exist and start the monitor
timer.  `dir_exists` supplies the outcome of the `os.path.isdir` probe. -/
def TransferActor.configure_actor (s : TransferActor) (cfg : StorageConfig)
    (home : String) (dir_exists : Bool) : ConfigureResult :=
  if cfg.max_connections < 1 then
    { state := s, error := some (.invalidMaxConnections cfg.max_connections) }
  else if cfg.multipart_size < 1024 * 1024 then
    { state := s, error := some (.invalidMultipartSize cfg.multipart_size) }
  else if cfg.monitor_interval ≤ 0 then
    { state := s, error := some (.invalidMonitorInterval cfg.monitor_interval) }
  else
    let mkdirEvents :=
      if dir_exists then [] else [Event.makeDirs (expanduser home cfg.local_dir)]
    let timer := s.start_timer cfg.monitor_interval
    { state := timer.1, events := mkdirEvents ++ timer.2 }

/-- The `ValueError` raised by `TransferActor.receiveMsg_Get` when
`expected_size` disagrees with the `content_length` of the HEAD response
("mismatching document_length: got ... wanted ..."); the specification's
error taxonomy calls it `SizeMismatch`. -/
inductive GetError where
  | sizeMismatch (got : Option Int) (want : Int)
  deriving Repr, DecidableEq

/-- Result of running `TransferActor.receiveMsg_Get`: new state, trace of
side effects, and the raised error if any (state and trace then reflect the
point where the exception escaped). -/
structure GetResult where
  state : TransferActor
  events : List Event := []
  error : Option GetError := none
  deriving Repr, DecidableEq

/-- Collaborators of `receiveMsg_Get` that live outside the supervisor: the
`Head` the client returns for the requested URL, and whether the `Transfer`
built for the destination is already finished on disk. -/
structure GetEnv where
  head : Head
  disk_finished : Bool := false
  deriving Repr, DecidableEq

/-- Modelled from the spec: the `Transfer` constructor
(`esrally/storage/_transfer.py` is not among the given sources).  Per the
specification, a new `Transfer` records the url, canonical path and the
`document_length` learned from the HEAD, seeds its `done` set from the
sidecar status file — so it may already be finished on disk, which the
environment supplies — and starts with an empty ring of recent errors. -/
def mkTransfer (env : GetEnv) (url path : String) : Transfer :=
  { url := url
    path := path
    document_length := env.head.content_length
    finished := env.disk_finished }

/-- The `TransferActor.receiveMsg_Get` handler
(src/esrally/storage/_manager.py lines 209-257): canonicalise the
destination path, reuse an existing transfer when the path is already in the
map, otherwise HEAD the url, fail on an `expected_size` mismatch, build a
`Transfer` (which opens or creates the destination file), and when it is not
already finished insert it, start it and run `update_transfers`; finally
send back the recent errors and a `TransferStatus` snapshot. -/
def TransferActor.receiveMsg_Get (s : TransferActor) (env : GetEnv)
    (home : String) (req : Get) : GetResult :=
  let path := get_request_path s.cfg home req
  match dictGet s.transfers path with
  | some transfer =>
    { state := s
      events := transfer.errors.map Event.sendError ++
        [Event.sendStatus (transfer.status req.url path)] }
  | none =>
    let head := env.head
    let headEvents := [Event.headRequest req.url]
    let proceed : GetResult :=
      let transfer := mkTransfer env req.url path
      let statusEvents := transfer.errors.map Event.sendError ++
        [Event.sendStatus (transfer.status req.url path)]
      if transfer.finished then
        { state := s
          events := headEvents ++ [Event.transferConstructed path] ++ statusEvents }
      else
        let s1 : TransferActor :=
          { s with transfers := dictInsert s.transfers path transfer }
        let upd := s1.update_transfers
        { state := upd.1
          events := headEvents ++ [Event.transferConstructed path,
            Event.startTransfer path] ++ upd.2 ++ statusEvents }
    match req.expected_size with
    | some want =>
      if head.content_length ≠ some want then
        { state := s
          events := headEvents
          error := some (.sizeMismatch head.content_length want) }
      else proceed
    | none => proceed

/-- Errors raised by `TransferManager.get`
(src/esrally/storage/_manager.py lines 86-91): `TimeoutError` when no
status was received, `TransferInterrupted` when the last received status is
not finished. -/
inductive ManagerGetError where
  | timeoutError
  | transferInterrupted
  deriving Repr, DecidableEq

/-- The `for response in actor.request(...)` loop of `TransferManager.get`
(src/esrally/storage/_manager.py lines 71-81): `status` tracks the last
result; a finished status breaks out of the loop and a raised exception
aborts it, in both cases keeping the last value of `status`. -/
def getLoop : List (Option TransferStatus) → Option TransferStatus →
    Option TransferStatus
  | [], last => last
  | none :: _, last => last
  | some st :: rest, _ => if st.finished then some st else getLoop rest (some st)

/-- The `TransferManager.get` method (src/esrally/storage/_manager.py lines
60-92) after its response loop: raise `TimeoutError` when no status was ever
received, `TransferInterrupted` when the last status is unfinished, and
return the status otherwise.  The `isinstance` guard against foreign result
types is not modelled: the stream carries `TransferStatus` values only. -/
def TransferManager.get (responses : List (Option TransferStatus)) :
    Except ManagerGetError TransferStatus :=
  match getLoop responses none with
  | none => .error .timeoutError
  | some st => if st.finished then .ok st else .error .transferInterrupted

/-- The `Response` hierarchy of src/esrally/actor.py lines 706-755: a bare
`Response`, a `Result` carrying a value, or an `Error` carrying an optional
exception; every variant carries the optional request uuid. -/
inductive BaseResponse (α : Type) where
  | bare (uid : Option Nat)
  | result (uid : Option Nat) (res : α)
  | error (uid : Option Nat) (err : Option String)
  deriving Repr, DecidableEq

/-- Messages travelling between actors, as seen by `BaseActor.send`
(src/esrally/actor.py): a plain payload, a raw exception, or an already
wrapped `Response`.  Exceptions are abstracted to strings. -/
inductive ActorMsg (α : Type) where
  | plain (v : α)
  | exc (e : String)
  | response (r : BaseResponse α)
  deriving Repr, DecidableEq

/-- The `as_response` helper (src/esrally/actor.py lines 724-729): leave a
`Response` untouched, wrap an exception in an `Error` and anything else in a
`Result`, stamping the given uuid on the wrappers. -/
def as_response {α : Type} (uid : Option Nat) : ActorMsg α → BaseResponse α
  | .response r => r
  | .exc e => .error uid (some e)
  | .plain v => .result uid v

/-- State of `BaseActor` relevant to request dispatch: the `_response_id`
field holding the uuid of the request currently being processed. -/
structure BaseActorState where
  response_id : Option Nat := none
  deriving Repr, DecidableEq

/-- The overridden `BaseActor.send` (src/esrally/actor.py lines 173-176):
while a request is being processed every outgoing message is wrapped through
`as_response` with the pending response id. -/
def BaseActorState.send {α : Type} (s : BaseActorState) (msg : ActorMsg α) : ActorMsg α :=
  match s.response_id with
  | some uid => .response (as_response (some uid) msg)
  | none => msg

/-- Outcome of dispatching the wrapped message through `receiveMessage`: the
messages the handler sent (in order) and the exception it raised, if any. -/
structure DispatchOutcome (α : Type) where
  sent : List (ActorMsg α) := []
  raised : Option String := none
  deriving Repr, DecidableEq

/-- The `BaseActor.receiveMsg_Request` handler
(src/esrally/actor.py lines 163-171): set `_response_id` to the request
uuid, dispatch the inner message — every message the handler sends is
wrapped with that id — and on an exception send `Error(err=ex)` back to the
requester (the `Error` is built with uuid `None` and passes through
`as_response` unchanged); the `finally` block clears `_response_id`, so the
exception never escapes and the actor keeps processing messages. -/
def receiveMsg_Request {α : Type} (s : BaseActorState) (requestUid : Option Nat)
    (dispatch : DispatchOutcome α) : BaseActorState × List (ActorMsg α) :=
  let s1 : BaseActorState := { s with response_id := requestUid }
  let sent := dispatch.sent.map s1.send
  match dispatch.raised with
  | none => ({ s1 with response_id := none }, sent)
  | some e =>
    ({ s1 with response_id := none },
      sent ++ [s1.send (.response (.error none (some e)))])

/-- The `ADMIN_PORT` default of src/esrally/actor.py line 482. -/
def ADMIN_PORT : Int := 0

/-- The `ActorConfig.admin_port` property (src/esrally/actor.py lines
69-71): `int(self.opts(..., default_value=ADMIN_PORT, mandatory=False)) or
None` — the configured value, defaulting to `ADMIN_PORT = 0`, with the falsy
`0` turned into `None`.  The `int(...)` coercion of string-typed option
values is the identity on the integer values modelled here. -/
def ActorConfig.admin_port (configured : Option Int) : Option Int :=
  let v := configured.getD ADMIN_PORT
  if v = 0 then none else some v

/-- Concrete supervisor state used by the C1 witness: three live transfers
and an executor reporting 4 workers. -/
def c1State : TransferActor :=
  { cfg := { max_connections := 4 }
    transfers :=
      [("a", { url := "u1", path := "a" }),
       ("b", { url := "u2", path := "b" }),
       ("c", { url := "u3", path := "c" })]
    executor_max_workers := some 4 }

/-- Per-transfer budget recomputed by `update_transfers` after dropping
finished transfers: the `max_connections` property of the supervisor state
whose map retains only the unfinished transfers. -/
def TransferActor.tick_budget (s : TransferActor) : Int :=
  ({ s with transfers := s.transfers.filter fun p => !p.2.finished }
    : TransferActor).max_connections

/-- HEAD answer and request used by the C2 witness: the remote document has
16 bytes while the request expects 15. -/
def c2Env : GetEnv := { head := { url := "http://example.com", content_length := some 16 } }

/-- Get request of the C2 witness. -/
def c2Req : Get := { url := "http://example.com", expected_size := some 15 }

/-- Unfinished status used by the C3 witness. -/
def c3Status : TransferStatus := { url := "http://example.com", path := "/data/f" }

/-- Supervisor state used by the C4 witness: one finished and one live
transfer, with the monitor timer armed as timer 1. -/
def c4State : TransferActor :=
  { cfg := { max_connections := 4 }
    transfers :=
      [("/a", { url := "u1", path := "/a", finished := true }),
       ("/b", { url := "u2", path := "/b" })]
    timer_id := 1
    executor_max_workers := some 4 }

/-- Finished transfer of the C5 witness, stored at its canonical path. -/
def c5Transfer : Transfer :=
  { url := "http://example.com", path := "/data/f", finished := true,
    document_length := some 16, done_size := 16 }

/-- Supervisor state of the C5 witness. -/
def c5State : TransferActor := { transfers := [("/data/f", c5Transfer)] }

/-- Get request of the C5 witness, naming the path already in the map. -/
def c5Req : Get := { url := "http://example.com", path := some "/data/f" }

/-- Dispatch outcome used by the C8 witness: the handler sent one plain
payload and then raised. -/
def c8Dispatch : DispatchOutcome Nat := { sent := [.plain 7], raised := some "boom" }

/-- Valid configuration used by the C7 witness (defaults are all valid). -/
def c7Cfg : StorageConfig := { local_dir := "/srv/cache" }

/-! ## Theorems -/

/-! ### Helper lemmas about `update_transfers` and the dict operations -/

theorem update_transfers_eq (s : TransferActor) :
    s.update_transfers =
      (if (s.transfers.filter fun p => !p.2.finished).isEmpty then
        ({ s with transfers := s.transfers.filter fun p => !p.2.finished },
          ([] : List Event))
      else
        ({ s with
            transfers := (s.transfers.filter fun p => !p.2.finished).map fun p =>
              (p.1, { p.2 with max_connections := s.tick_budget }) },
          ((s.transfers.filter fun p => !p.2.finished).map
            (tickBlock s.tick_budget)).flatten ++ [Event.logSummary])) := rfl

theorem tickBlock_mem {b : Int} {q : String × Transfer} {e : Event}
    (h : e ∈ tickBlock b q) :
    e = Event.setMaxConnections q.1 b ∨ e = Event.saveStatus q.1 ∨
      e = Event.startTransfer q.1 := by
  simpa [tickBlock] using h

theorem blocks_mem {b : Int} {R : List (String × Transfer)} {e : Event}
    (h : e ∈ (R.map (tickBlock b)).flatten) :
    ∃ q ∈ R, e = Event.setMaxConnections q.1 b ∨ e = Event.saveStatus q.1 ∨
      e = Event.startTransfer q.1 := by
  rcases List.mem_flatten.mp h with ⟨l, hl, hmem⟩
  rcases List.mem_map.mp hl with ⟨q, hq, rfl⟩
  exact ⟨q, hq, tickBlock_mem hmem⟩

theorem update_transfers_mem (s : TransferActor) (e : Event)
    (he : e ∈ (s.update_transfers).2) :
    (∃ p, e = Event.setMaxConnections p s.tick_budget) ∨
    (∃ p, e = Event.saveStatus p) ∨ (∃ p, e = Event.startTransfer p) ∨
    e = Event.logSummary := by
  rw [update_transfers_eq] at he
  split at he
  · simp at he
  · simp only [] at he
    rcases List.mem_append.mp he with h | h
    · rcases blocks_mem h with ⟨q, _, h1 | h1 | h1⟩
      · exact Or.inl ⟨q.1, h1⟩
      · exact Or.inr (Or.inl ⟨q.1, h1⟩)
      · exact Or.inr (Or.inr (Or.inl ⟨q.1, h1⟩))
    · rcases List.mem_singleton.mp h with rfl
      exact Or.inr (Or.inr (Or.inr rfl))

theorem update_transfers_keys (s : TransferActor) :
    (s.update_transfers).1.transfers.map Prod.fst =
      (s.transfers.filter fun p => !p.2.finished).map Prod.fst := by
  rw [update_transfers_eq]
  split
  · rfl
  · simp [List.map_map, Function.comp]

theorem update_transfers_unfinished (s : TransferActor) :
    ∀ p ∈ (s.update_transfers).1.transfers, p.2.finished = false := by
  rw [update_transfers_eq]
  split
  · intro p hp
    simpa using (List.mem_filter.mp hp).2
  · intro p hp
    simp only [] at hp
    rcases List.mem_map.mp hp with ⟨q, hq, rfl⟩
    simpa using (List.mem_filter.mp hq).2

theorem update_transfers_events_of_not_empty (s : TransferActor)
    (h : (s.transfers.filter fun p => !p.2.finished).isEmpty = false) :
    (s.update_transfers).2 =
      ((s.transfers.filter fun p => !p.2.finished).map
        (tickBlock s.tick_budget)).flatten ++ [Event.logSummary] := by
  rw [update_transfers_eq]
  simp [h]

theorem dictInsert_keys (m : List (String × Transfer)) (k : String)
    (v : Transfer) :
    ∀ x ∈ (dictInsert m k v).map Prod.fst, x ∈ m.map Prod.fst ∨ x = k := by
  intro x hx
  unfold dictInsert at hx
  split at hx
  · rcases List.mem_map.mp hx with ⟨p, hp, hfx⟩
    rcases List.mem_map.mp hp with ⟨q, hq, rfl⟩
    by_cases hqk : q.1 == k
    · right
      rw [if_pos hqk] at hfx
      exact hfx.symm
    · left
      rw [if_neg hqk] at hfx
      exact hfx ▸ List.mem_map_of_mem Prod.fst hq
  · rw [List.map_append] at hx
    rcases List.mem_append.mp hx with h | h
    · exact Or.inl h
    · exact Or.inr (List.mem_singleton.mp h)

theorem filter_keys_mem {m : List (String × Transfer)}
    {f : String × Transfer → Bool} {x : String}
    (hx : x ∈ (m.filter f).map Prod.fst) : x ∈ m.map Prod.fst := by
  rcases List.mem_map.mp hx with ⟨p, hp, rfl⟩
  exact List.mem_map_of_mem Prod.fst (List.mem_of_mem_filter hp)

theorem count_tickBlock_setMax (b : Int) (q : String × Transfer)
    (path : String) :
    (tickBlock b q).count (Event.setMaxConnections path b) =
      if q.1 = path then 1 else 0 := by
  by_cases h : q.1 = path <;> simp [tickBlock, List.count_cons, h]

theorem count_tickBlock_save (b : Int) (q : String × Transfer)
    (path : String) :
    (tickBlock b q).count (Event.saveStatus path) =
      if q.1 = path then 1 else 0 := by
  by_cases h : q.1 = path <;> simp [tickBlock, List.count_cons, h]

theorem count_tickBlock_start (b : Int) (q : String × Transfer)
    (path : String) :
    (tickBlock b q).count (Event.startTransfer path) =
      if q.1 = path then 1 else 0 := by
  by_cases h : q.1 = path <;> simp [tickBlock, List.count_cons, h]

theorem count_blocks_of_nodup (b : Int) (R : List (String × Transfer))
    (path : String) (e : Event)
    (hcount : ∀ q : String × Transfer,
      (tickBlock b q).count e = if q.1 = path then 1 else 0)
    (hnd : (R.map Prod.fst).Nodup) (hmem : path ∈ R.map Prod.fst) :
    ((R.map (tickBlock b)).flatten).count e = 1 := by
  induction R with
  | nil => simp at hmem
  | cons q R ih =>
    simp only [List.map_cons, List.flatten_cons, List.count_append]
    simp only [List.map_cons, List.nodup_cons] at hnd
    rcases hnd with ⟨hq, hndR⟩
    rw [List.map_cons] at hmem
    rcases List.mem_cons.mp hmem with hpq | hmem2
    · rw [hcount q, if_pos hpq.symm]
      have hz : ((R.map (tickBlock b)).flatten).count e = 0 := by
        rw [List.count_eq_zero]
        intro hcon
        rcases blocks_mem hcon with ⟨q2, hq2, hshape⟩
        have hpos : 0 < (tickBlock b q2).count e :=
          List.count_pos_iff.mpr (by rcases hshape with h | h | h <;>
            simp [tickBlock, h])
        rw [hcount q2] at hpos
        by_cases hq2p : q2.1 = path
        · exact hq (hpq ▸ hq2p ▸ List.mem_map_of_mem Prod.fst hq2)
        · simp [hq2p] at hpos
      omega
    · have hq1p : ¬q.1 = path := fun hqp => hq (hqp ▸ hmem2)
      rw [hcount q, if_neg hq1p, ih hndR hmem2]

theorem count_blocks_log (b : Int) (R : List (String × Transfer)) :
    ((R.map (tickBlock b)).flatten).count Event.logSummary = 0 := by
  rw [List.count_eq_zero]
  intro hcon
  rcases blocks_mem hcon with ⟨q, _, h | h | h⟩ <;> exact Event.noConfusion h

theorem tickBlock_sublist (b : Int) {R : List (String × Transfer)}
    {q : String × Transfer} (hq : q ∈ R) :
    List.Sublist (tickBlock b q) ((R.map (tickBlock b)).flatten) :=
  List.sublist_flatten_of_mem (List.mem_map_of_mem (tickBlock b) hq)

theorem effective_max_workers_pos (mw : Option Int) :
    1 ≤ effective_max_workers mw := by
  simp [effective_max_workers]

/-- C1: for every supervisor state the per-transfer connection budget equals
the configured `max_connections` when no transfer is live, equals
`min(configured, max_workers // N + 1)` (with `max_workers` clamped to at
least 1) when `N` transfers are live, and is at least 1 whenever the
configured `max_connections` is at least 1. -/
theorem max_connections_spec (s : TransferActor) :
    (s.transfers.length = 0 → s.max_connections = s.cfg.max_connections)
    ∧ (0 < s.transfers.length →
        s.max_connections =
          min s.cfg.max_connections
            ((effective_max_workers s.executor_max_workers /
                s.transfers.length + 1 : Nat) : Int))
    ∧ (1 ≤ s.cfg.max_connections → 1 ≤ s.max_connections) := by
  refine ⟨?_, ?_, ?_⟩
  · intro h
    simp [TransferActor.max_connections, h]
  · intro h
    simp [TransferActor.max_connections, h]
  · intro h
    by_cases hn : 0 < s.transfers.length
    · have h2 : (1 : Int) ≤
          ((effective_max_workers s.executor_max_workers /
              s.transfers.length + 1 : Nat) : Int) := by
        exact_mod_cast Nat.succ_le_succ (Nat.zero_le _)
      simp only [TransferActor.max_connections, hn, if_pos]
      exact le_min h h2
    · simp [TransferActor.max_connections, hn, h]

theorem max_connections_spec_witness :
    c1State.max_connections =
      min c1State.cfg.max_connections
        ((effective_max_workers c1State.executor_max_workers /
            c1State.transfers.length + 1 : Nat) : Int)
    ∧ 1 ≤ c1State.max_connections := by
  have h := max_connections_spec c1State
  exact ⟨h.2.1 (by decide), h.2.2 (by decide)⟩

/-- C2: a Get request whose canonical path has no live transfer and whose
`expected_size` disagrees with the `content_length` of the HEAD probe fails
with the size-mismatch `ValueError` (the specification's `SizeMismatch`);
the failure happens right after the HEAD — before any `Transfer` is
constructed — the supervisor state (in particular the transfers map) is left
unchanged, and no destination file is created (no `Transfer` construction,
no start). -/
theorem get_size_mismatch_spec (s : TransferActor) (env : GetEnv)
    (home : String) (req : Get) (want : Int)
    (hnew : dictGet s.transfers (get_request_path s.cfg home req) = none)
    (hexp : req.expected_size = some want)
    (hmism : env.head.content_length ≠ some want) :
    (s.receiveMsg_Get env home req).error =
      some (.sizeMismatch env.head.content_length want)
    ∧ (s.receiveMsg_Get env home req).state = s
    ∧ (s.receiveMsg_Get env home req).events = [Event.headRequest req.url]
    ∧ (∀ p, Event.transferConstructed p ∉ (s.receiveMsg_Get env home req).events)
    ∧ (∀ p, Event.startTransfer p ∉ (s.receiveMsg_Get env home req).events) := by
  have hres : s.receiveMsg_Get env home req =
      { state := s, events := [Event.headRequest req.url],
        error := some (.sizeMismatch env.head.content_length want) } := by
    simp [TransferActor.receiveMsg_Get, hnew, hexp, hmism]
  refine ⟨by simp [hres], by simp [hres], by simp [hres], ?_, ?_⟩
  · intro p
    simp [hres]
  · intro p
    simp [hres]

theorem get_size_mismatch_spec_witness :
    (TransferActor.receiveMsg_Get {} c2Env "/home/u" c2Req).error =
      some (.sizeMismatch (some 16) 15)
    ∧ (TransferActor.receiveMsg_Get {} c2Env "/home/u" c2Req).state = {}
    ∧ (TransferActor.receiveMsg_Get {} c2Env "/home/u" c2Req).events =
        [Event.headRequest "http://example.com"] := by
  have h := get_size_mismatch_spec {} c2Env "/home/u" c2Req 15
    (by decide) (by decide) (by decide)
  exact ⟨h.1, h.2.1, h.2.2.1⟩

/-- C3: `TransferManager.get` raises `TimeoutError` when no status was
received before the response stream ended, raises `TransferInterrupted` when
the last received status is unfinished, and otherwise returns a status whose
`finished` field is true. -/
theorem manager_get_spec (responses : List (Option TransferStatus)) :
    (getLoop responses none = none →
      TransferManager.get responses = .error .timeoutError)
    ∧ (∀ st, getLoop responses none = some st → st.finished = false →
        TransferManager.get responses = .error .transferInterrupted)
    ∧ (∀ st, getLoop responses none = some st → st.finished = true →
        TransferManager.get responses = .ok st)
    ∧ (∀ st, TransferManager.get responses = .ok st → st.finished = true) := by
  refine ⟨?_, ?_, ?_, ?_⟩
  · intro h
    simp [TransferManager.get, h]
  · intro st h hf
    simp [TransferManager.get, h, hf]
  · intro st h hf
    simp [TransferManager.get, h, hf]
  · intro st h
    rcases heq : getLoop responses none with _ | st2
    · simp [TransferManager.get, heq] at h
    · by_cases hf : st2.finished
      · simp [TransferManager.get, heq, hf] at h
        simpa [← h] using hf
      · simp [TransferManager.get, heq, hf] at h

theorem manager_get_spec_witness :
    TransferManager.get [] = .error .timeoutError
    ∧ TransferManager.get [some c3Status, none] = .error .transferInterrupted := by
  refine ⟨(manager_get_spec []).1 (by decide), ?_⟩
  exact (manager_get_spec [some c3Status, none]).2.1 c3Status (by decide) (by decide)

/-- C8: a handler exception inside a `Request` never escapes
`BaseActor.receiveMsg_Request`: the pending response id is cleared in every
case, on an exception the last message sent back to the requester is an
`Error` response carrying it, and the post state is exactly the cleared
state, so a subsequent request is processed as from a fresh actor. -/
theorem request_error_containment_spec {α : Type} (s : BaseActorState)
    (requestUid : Option Nat) (dispatch : DispatchOutcome α) :
    (receiveMsg_Request s requestUid dispatch).1.response_id = none
    ∧ (∀ e, dispatch.raised = some e →
        (receiveMsg_Request s requestUid dispatch).2.getLast? =
          some (ActorMsg.response (BaseResponse.error none (some e))))
    ∧ (dispatch.raised = none →
        (receiveMsg_Request s requestUid dispatch).2 =
          dispatch.sent.map (BaseActorState.send { response_id := requestUid }))
    ∧ (∀ requestUid2 (dispatch2 : DispatchOutcome α),
        receiveMsg_Request (receiveMsg_Request s requestUid dispatch).1
            requestUid2 dispatch2 =
          receiveMsg_Request { response_id := none } requestUid2 dispatch2) := by
  refine ⟨?_, ?_, ?_, ?_⟩
  · rcases h : dispatch.raised with _ | e <;>
      simp [receiveMsg_Request, h]
  · intro e he
    simp [receiveMsg_Request, he, BaseActorState.send, as_response]
    rcases requestUid with _ | uid <;> simp
  · intro h
    simp [receiveMsg_Request, h]
  · intro requestUid2 dispatch2
    rcases h : dispatch.raised with _ | e <;>
      simp [receiveMsg_Request, h]

theorem request_error_containment_spec_witness :
    (receiveMsg_Request {} (some 3) c8Dispatch).1.response_id = none
    ∧ (receiveMsg_Request {} (some 3) c8Dispatch).2.getLast? =
        some (ActorMsg.response (BaseResponse.error none (some "boom"))) := by
  have h := request_error_containment_spec {} (some 3) c8Dispatch
  exact ⟨h.1, h.2.1 "boom" (by decide)⟩

/-- C9: `ActorConfig.admin_port` returns `None` when the configured value is
0 — including the `ADMIN_PORT = 0` default taken when the option is absent —
and the port itself otherwise: port 0 means unset. -/
theorem admin_port_spec (configured : Option Int) :
    ActorConfig.admin_port none = none
    ∧ ActorConfig.admin_port (some 0) = none
    ∧ (configured.getD ADMIN_PORT = 0 → ActorConfig.admin_port configured = none)
    ∧ (∀ v : Int, v ≠ 0 → ActorConfig.admin_port (some v) = some v) := by
  refine ⟨rfl, rfl, ?_, ?_⟩
  · intro h
    simp [ActorConfig.admin_port, h]
  · intro v hv
    simp [ActorConfig.admin_port, hv]

/-- C5: when the transfers map already holds a finished transfer under the
request's canonical path, `receiveMsg_Get` returns immediately: nothing is
raised, the supervisor state is untouched, the last message sent is a
`TransferStatus` with `finished = true`, and the trace contains no network
operation (no HEAD probe, no transfer start) and no `Transfer` construction
(so no file is opened). -/
theorem get_done_idempotent_spec (s : TransferActor) (env : GetEnv)
    (home : String) (req : Get) (tr : Transfer)
    (hfound : dictGet s.transfers (get_request_path s.cfg home req) = some tr)
    (hdone : tr.finished = true) :
    (s.receiveMsg_Get env home req).error = none
    ∧ (s.receiveMsg_Get env home req).state = s
    ∧ (s.receiveMsg_Get env home req).events.getLast? =
        some (Event.sendStatus (tr.status req.url (get_request_path s.cfg home req)))
    ∧ (tr.status req.url (get_request_path s.cfg home req)).finished = true
    ∧ (∀ e ∈ (s.receiveMsg_Get env home req).events, e.isNetwork = false)
    ∧ (∀ p, Event.transferConstructed p ∉ (s.receiveMsg_Get env home req).events) := by
  have hres : s.receiveMsg_Get env home req =
      { state := s
        events := tr.errors.map Event.sendError ++
          [Event.sendStatus (tr.status req.url (get_request_path s.cfg home req))] } := by
    simp [TransferActor.receiveMsg_Get, hfound]
  refine ⟨by simp [hres], by simp [hres], ?_, ?_, ?_, ?_⟩
  · simp [hres]
  · simp [Transfer.status, hdone]
  · intro e he
    rw [hres] at he
    rcases List.mem_append.mp he with h | h
    · rcases List.mem_map.mp h with ⟨err, _, rfl⟩
      rfl
    · rcases List.mem_singleton.mp h with rfl
      rfl
  · intro p hp
    rw [hres] at hp
    rcases List.mem_append.mp hp with h | h
    · rcases List.mem_map.mp h with ⟨err, _, heq⟩
      exact Event.noConfusion heq
    · rcases List.mem_singleton.mp h with heq
      exact Event.noConfusion heq

theorem get_done_idempotent_spec_witness :
    (c5State.receiveMsg_Get c2Env "/h" c5Req).error = none
    ∧ (c5State.receiveMsg_Get c2Env "/h" c5Req).state = c5State
    ∧ (c5State.receiveMsg_Get c2Env "/h" c5Req).events.getLast? =
        some (Event.sendStatus (c5Transfer.status "http://example.com" "/data/f"))
    ∧ (∀ e ∈ (c5State.receiveMsg_Get c2Env "/h" c5Req).events,
        e.isNetwork = false) := by
  have h := get_done_idempotent_spec c5State c2Env "/h" c5Req c5Transfer
    (by decide) (by decide)
  refine ⟨h.1, h.2.1, ?_, h.2.2.2.2.1⟩
  have h3 := h.2.2.1
  have hpath : get_request_path c5State.cfg "/h" c5Req = "/data/f" := by decide
  have hurl : c5Req.url = "http://example.com" := rfl
  rw [hpath, hurl] at h3
  exact h3

/-- C6 (amended): with `path = None` the destination is obtained by joining
`local_dir` with the full URL string — not the URL's path component — and in
all cases (default or caller-supplied) the path used for the transfers map
is canonicalised by user expansion and normalisation; every status sent back
carries that canonical path, and any key the handler adds to the map is that
canonical path. -/
theorem get_request_path_spec (s : TransferActor) (env : GetEnv)
    (home : String) (req : Get) :
    (req.path = none →
      get_request_path s.cfg home req =
        normpath (expanduser home (joinPath s.cfg.local_dir req.url)))
    ∧ (∀ p, req.path = some p →
        get_request_path s.cfg home req = normpath (expanduser home p))
    ∧ (∀ st, Event.sendStatus st ∈ (s.receiveMsg_Get env home req).events →
        st.path = get_request_path s.cfg home req)
    ∧ (∀ k, k ∈ (s.receiveMsg_Get env home req).state.transfers.map Prod.fst →
        k ∈ s.transfers.map Prod.fst ∨ k = get_request_path s.cfg home req) := by
  refine ⟨?_, ?_, ?_, ?_⟩
  · intro h
    simp [get_request_path, h]
  · intro p hp
    simp [get_request_path, hp]
  · intro st hst
    simp only [TransferActor.receiveMsg_Get] at hst
    split at hst
    · simp only [List.mem_append] at hst
      rcases hst with h | h
      · simp at h
      · simp only [List.mem_singleton, Event.sendStatus.injEq] at h
        subst h
        rfl
    · split at hst
      · split at hst
        · simp at hst
        · split at hst
          · simp only [List.mem_append] at hst
            rcases hst with (h | h) | h | h
            · simp at h
            · simp at h
            · simp at h
            · simp only [List.mem_singleton, Event.sendStatus.injEq] at h
              subst h
              rfl
          · simp only [List.mem_append] at hst
            rcases hst with ((h | h) | h) | h | h
            · simp at h
            · simp at h
            · rcases update_transfers_mem _ _ h with
                ⟨p, hp⟩ | ⟨p, hp⟩ | ⟨p, hp⟩ | hp <;> simp at hp
            · simp at h
            · simp only [List.mem_singleton, Event.sendStatus.injEq] at h
              subst h
              rfl
      · split at hst
        · simp only [List.mem_append] at hst
          rcases hst with (h | h) | h | h
          · simp at h
          · simp at h
          · simp at h
          · simp only [List.mem_singleton, Event.sendStatus.injEq] at h
            subst h
            rfl
        · simp only [List.mem_append] at hst
          rcases hst with ((h | h) | h) | h | h
          · simp at h
          · simp at h
          · rcases update_transfers_mem _ _ h with
              ⟨p, hp⟩ | ⟨p, hp⟩ | ⟨p, hp⟩ | hp <;> simp at hp
          · simp at h
          · simp only [List.mem_singleton, Event.sendStatus.injEq] at h
            subst h
            rfl
  · intro k hk
    simp only [TransferActor.receiveMsg_Get] at hk
    split at hk
    · exact Or.inl hk
    · split at hk
      · split at hk
        · exact Or.inl hk
        · split at hk
          · exact Or.inl hk
          · rw [update_transfers_keys] at hk
            have hk2 := filter_keys_mem hk
            exact dictInsert_keys _ _ _ k hk2
      · split at hk
        · exact Or.inl hk
        · rw [update_transfers_keys] at hk
          have hk2 := filter_keys_mem hk
          exact dictInsert_keys _ _ _ k hk2

theorem admin_port_spec_witness :
    ActorConfig.admin_port (some 0) = none
    ∧ ActorConfig.admin_port (some 1900) = some 1900 := by
  have h := admin_port_spec (some 0)
  exact ⟨h.2.2.1 (by decide), h.2.2.2 1900 (by decide)⟩

/-- C6 counterexample: the claim says the default destination path joins
`local_dir` with the path component of the URL (what
`StorageConfig.local_path` computes), but `receiveMsg_Get` joins `local_dir`
with the full URL string: at `local_dir = "/d"` and
`url = "http://example.com/a"` the handler uses `/d/http:/example.com/a`
while the claimed derivation yields `/a`. -/
theorem get_default_path_counterexample :
    get_request_path { local_dir := "/d" } "/home/u"
        { url := "http://example.com/a" } = "/d/http:/example.com/a"
    ∧ StorageConfig.local_path { local_dir := "/d" } "/home/u" none
        (some "http://example.com/a") = some "/a"
    ∧ normpath (expanduser "/home/u"
        (joinPath "/d" (urlparsePath "http://example.com/a"))) = "/a"
    ∧ get_request_path { local_dir := "/d" } "/home/u"
        { url := "http://example.com/a" } ≠
      normpath (expanduser "/home/u"
        (joinPath "/d" (urlparsePath "http://example.com/a"))) :=
  ⟨by decide, by decide, by decide, by decide⟩

theorem get_request_path_spec_witness :
    get_request_path ({ cfg := { local_dir := "/d" } } : TransferActor).cfg
        "/home/u" { url := "http://example.com/a" } =
      normpath (expanduser "/home/u" (joinPath "/d" "http://example.com/a")) := by
  have h := get_request_path_spec { cfg := { local_dir := "/d" } } c2Env
    "/home/u" { url := "http://example.com/a" }
  exact h.1 rfl

/-- C7: `configure_actor` accepts a configuration exactly when
`max_connections ≥ 1`, `multipart_size ≥ 1 MiB` and `monitor_interval > 0`;
a rejected configuration raises a `ValueError` (the `ConfigureError` cases)
leaving the state untouched and producing no effect — in particular the
monitor timer is not started — while an accepted one bumps `timer_id`, arms
the timer, and creates the user-expanded `local_dir` exactly when it does
not exist. -/
theorem configure_actor_spec (s : TransferActor) (cfg : StorageConfig)
    (home : String) (dir_exists : Bool) :
    ((s.configure_actor cfg home dir_exists).error = none ↔
      (1 ≤ cfg.max_connections ∧ 1024 * 1024 ≤ cfg.multipart_size ∧
        0 < cfg.monitor_interval))
    ∧ ((s.configure_actor cfg home dir_exists).error ≠ none →
        (s.configure_actor cfg home dir_exists).state = s
        ∧ (s.configure_actor cfg home dir_exists).events = [])
    ∧ ((s.configure_actor cfg home dir_exists).error = none →
        (s.configure_actor cfg home dir_exists).state =
          { s with timer_id := s.timer_id + 1 }
        ∧ (dir_exists = false →
            (s.configure_actor cfg home dir_exists).events =
              [Event.makeDirs (expanduser home cfg.local_dir),
               Event.wakeupAfter 0 (s.timer_id + 1) cfg.monitor_interval])
        ∧ (dir_exists = true →
            (s.configure_actor cfg home dir_exists).events =
              [Event.wakeupAfter 0 (s.timer_id + 1) cfg.monitor_interval])) := by
  unfold TransferActor.configure_actor
  split_ifs with h1 h2 h3 h4
  · refine ⟨?_, fun _ => ⟨rfl, rfl⟩, ?_⟩
    · constructor
      · intro h
        simp at h
      · rintro ⟨hc, -, -⟩
        omega
    · intro h
      simp at h
  · refine ⟨?_, fun _ => ⟨rfl, rfl⟩, ?_⟩
    · constructor
      · intro h
        simp at h
      · rintro ⟨-, hm, -⟩
        omega
    · intro h
      simp at h
  · refine ⟨?_, fun _ => ⟨rfl, rfl⟩, ?_⟩
    · constructor
      · intro h
        simp at h
      · rintro ⟨-, -, hmi⟩
        exact absurd h3 (not_le.mpr hmi)
    · intro h
      simp at h
  · refine ⟨?_, fun hcon => absurd rfl hcon, ?_⟩
    · exact ⟨fun _ => ⟨by omega, by omega, not_le.mp h3⟩, fun _ => rfl⟩
    · intro _
      refine ⟨rfl, ?_, fun _ => rfl⟩
      intro hd
      rw [hd] at h4
      simp at h4
  · refine ⟨?_, fun hcon => absurd rfl hcon, ?_⟩
    · exact ⟨fun _ => ⟨by omega, by omega, not_le.mp h3⟩, fun _ => rfl⟩
    · intro _
      refine ⟨rfl, fun _ => rfl, ?_⟩
      intro hd
      rw [hd] at h4
      simp at h4

theorem configure_actor_spec_witness :
    (TransferActor.configure_actor {} c7Cfg "/home/u" false).error = none
    ∧ (TransferActor.configure_actor {} c7Cfg "/home/u" false).state =
        { ({} : TransferActor) with timer_id := 1 } := by
  have h := configure_actor_spec {} c7Cfg "/home/u" false
  have he := h.1.mpr ⟨by decide, by decide, by decide⟩
  exact ⟨he, (h.2.2 he).1⟩

/-- C4: on a monitor tick (a wakeup carrying the live timer id) the finished
transfers are dropped first — the surviving keys are exactly the unfinished
ones and every survivor is unfinished; for each survivor the trace contains,
exactly once each and in this order, the assignment of the freshly computed
budget (computed on the already-filtered map), `save_status`, `start`, and
then the summary log line; the summary is logged exactly once whenever any
transfer survives, every surviving transfer's `max_connections` field holds
the fresh budget, and `client.monitor()` runs after `update_transfers` has
completed. -/
theorem tick_update_ordering_spec (s : TransferActor) (tid : Nat)
    (interval : Rat) (hid : tid = s.timer_id)
    (hnd : (s.transfers.map Prod.fst).Nodup) :
    (s.receiveMsg_WakeupMessage (tid, interval)).1.transfers.map Prod.fst =
      (s.transfers.filter fun p => !p.2.finished).map Prod.fst
    ∧ (∀ p ∈ (s.receiveMsg_WakeupMessage (tid, interval)).1.transfers,
        p.2.finished = false)
    ∧ (∀ path ∈ (s.transfers.filter fun p => !p.2.finished).map Prod.fst,
        List.Sublist
          [Event.setMaxConnections path s.tick_budget, Event.saveStatus path,
           Event.startTransfer path, Event.logSummary]
          (s.receiveMsg_WakeupMessage (tid, interval)).2
        ∧ (s.receiveMsg_WakeupMessage (tid, interval)).2.count
            (Event.setMaxConnections path s.tick_budget) = 1
        ∧ (s.receiveMsg_WakeupMessage (tid, interval)).2.count
            (Event.saveStatus path) = 1
        ∧ (s.receiveMsg_WakeupMessage (tid, interval)).2.count
            (Event.startTransfer path) = 1)
    ∧ ((s.transfers.filter fun p => !p.2.finished) ≠ [] →
        (s.receiveMsg_WakeupMessage (tid, interval)).2.count
          Event.logSummary = 1)
    ∧ ((s.transfers.filter fun p => !p.2.finished) ≠ [] →
        ∀ p ∈ (s.receiveMsg_WakeupMessage (tid, interval)).1.transfers,
          p.2.max_connections = s.tick_budget)
    ∧ (s.receiveMsg_WakeupMessage (tid, interval)).2 =
        (s.update_transfers).2 ++
          [Event.clientMonitor, Event.wakeupAfter interval tid interval]
    ∧ (s.receiveMsg_WakeupMessage (tid, interval)).1 =
        (s.update_transfers).1 := by
  have hw : s.receiveMsg_WakeupMessage (tid, interval) =
      ((s.update_transfers).1, (s.update_transfers).2 ++
        [Event.clientMonitor, Event.wakeupAfter interval tid interval]) := by
    simp [TransferActor.receiveMsg_WakeupMessage, hid]
  have hw1 : (s.receiveMsg_WakeupMessage (tid, interval)).1 =
      (s.update_transfers).1 := by rw [hw]
  have hw2 : (s.receiveMsg_WakeupMessage (tid, interval)).2 =
      (s.update_transfers).2 ++
        [Event.clientMonitor, Event.wakeupAfter interval tid interval] := by
    rw [hw]
  refine ⟨?_, ?_, ?_, ?_, ?_, hw2, hw1⟩
  · rw [hw1]
    exact update_transfers_keys s
  · rw [hw1]
    exact update_transfers_unfinished s
  · intro path hpath
    rcases List.mem_map.mp hpath with ⟨q, hq, rfl⟩
    have hemp : (s.transfers.filter fun p => !p.2.finished).isEmpty = false := by
      rcases hfe : s.transfers.filter fun p => !p.2.finished with _ | _
      · rw [hfe] at hq
        simp at hq
      · rw [hfe]
        rfl
    have hupd := update_transfers_events_of_not_empty s hemp
    have htrace : (s.receiveMsg_WakeupMessage (tid, interval)).2 =
        (((s.transfers.filter fun p => !p.2.finished).map
            (tickBlock s.tick_budget)).flatten ++ [Event.logSummary]) ++
          [Event.clientMonitor, Event.wakeupAfter interval tid interval] := by
      rw [hw2, hupd]
    have hndR : ((s.transfers.filter fun p => !p.2.finished).map
        Prod.fst).Nodup :=
      ((List.filter_sublist s.transfers).map Prod.fst).nodup hnd
    have hmemk : q.1 ∈ (s.transfers.filter fun p => !p.2.finished).map
        Prod.fst := List.mem_map_of_mem Prod.fst hq
    refine ⟨?_, ?_, ?_, ?_⟩
    · have hb := tickBlock_sublist s.tick_budget hq
      have hb4 := hb.append (List.Sublist.refl [Event.logSummary])
      rw [htrace]
      exact hb4.trans (List.sublist_append_left _ _)
    · rw [htrace]
      simp only [List.count_append]
      rw [count_blocks_of_nodup s.tick_budget _ q.1 _
        (fun q2 => count_tickBlock_setMax s.tick_budget q2 q.1) hndR hmemk]
      simp
    · rw [htrace]
      simp only [List.count_append]
      rw [count_blocks_of_nodup s.tick_budget _ q.1 _
        (fun q2 => count_tickBlock_save s.tick_budget q2 q.1) hndR hmemk]
      simp
    · rw [htrace]
      simp only [List.count_append]
      rw [count_blocks_of_nodup s.tick_budget _ q.1 _
        (fun q2 => count_tickBlock_start s.tick_budget q2 q.1) hndR hmemk]
      simp
  · intro hne
    have hemp : (s.transfers.filter fun p => !p.2.finished).isEmpty = false := by
      rcases hfe : s.transfers.filter fun p => !p.2.finished with _ | _
      · exact absurd hfe hne
      · rw [hfe]
        rfl
    rw [hw2, update_transfers_events_of_not_empty s hemp]
    simp only [List.count_append]
    rw [count_blocks_log]
    simp
  · intro hne p hp
    rw [hw1] at hp
    rw [update_transfers_eq] at hp
    split at hp
    · next hemp =>
      exact absurd (List.isEmpty_iff.mp hemp) hne
    · simp only [] at hp
      rcases List.mem_map.mp hp with ⟨q, hq, rfl⟩
      rfl

theorem tick_update_ordering_spec_witness :
    (c4State.receiveMsg_WakeupMessage (1, 2)).1.transfers.map Prod.fst = ["/b"]
    ∧ List.Sublist
        [Event.setMaxConnections "/b" c4State.tick_budget,
         Event.saveStatus "/b", Event.startTransfer "/b", Event.logSummary]
        (c4State.receiveMsg_WakeupMessage (1, 2)).2 := by
  have h := tick_update_ordering_spec c4State 1 2 rfl (by decide)
  constructor
  · rw [h.1]
    decide
  · exact (h.2.2.1 "/b" (by decide)).1

/-- C10: a wakeup whose payload timer id differs from the live `timer_id` is
a complete no-op — the state is unchanged and no event happens, so no
`update_transfers`, no `client.monitor()`, no re-arm; `stop_timer` sets the
live id to 0 while every armed payload id comes from `start_timer`, which
always arms the strictly positive successor id (and a matched tick re-arms
only with its own payload id), hence after `stop_timer` every wakeup of a
previously armed chain does no tick work. -/
theorem wakeup_stale_spec (s : TransferActor) (tid : Nat) (interval : Rat) :
    (tid ≠ s.timer_id → s.receiveMsg_WakeupMessage (tid, interval) = (s, []))
    ∧ s.stop_timer.timer_id = 0
    ∧ (0 < tid → s.stop_timer.receiveMsg_WakeupMessage (tid, interval) =
        (s.stop_timer, []))
    ∧ (s.start_timer interval).2 =
        [Event.wakeupAfter 0 (s.timer_id + 1) interval]
    ∧ 0 < (s.start_timer interval).1.timer_id
    ∧ (tid = s.timer_id →
        ∀ d j i2, Event.wakeupAfter d j i2 ∈
            (s.receiveMsg_WakeupMessage (tid, interval)).2 →
          j = tid ∧ i2 = interval) := by
  refine ⟨?_, rfl, ?_, rfl, ?_, ?_⟩
  · intro h
    simp [TransferActor.receiveMsg_WakeupMessage, h]
  · intro h
    have hne : tid ≠ s.stop_timer.timer_id := by
      simp only [TransferActor.stop_timer]
      omega
    simp [TransferActor.receiveMsg_WakeupMessage, hne]
  · simp [TransferActor.start_timer]
  · intro hid d j i2 hmem
    have hw2 : (s.receiveMsg_WakeupMessage (tid, interval)).2 =
        (s.update_transfers).2 ++
          [Event.clientMonitor, Event.wakeupAfter interval tid interval] := by
      simp [TransferActor.receiveMsg_WakeupMessage, hid]
    rw [hw2] at hmem
    rcases List.mem_append.mp hmem with h | h
    · rcases update_transfers_mem _ _ h with
        ⟨p, hp⟩ | ⟨p, hp⟩ | ⟨p, hp⟩ | hp <;> simp at hp
    · simp only [List.mem_cons, List.not_mem_nil, or_false] at h
      rcases h with h | h
      · exact absurd h (by simp)
      · have := Event.wakeupAfter.inj h
        exact ⟨this.2.1, this.2.2⟩

theorem wakeup_stale_spec_witness :
    c4State.receiveMsg_WakeupMessage (2, 5) = (c4State, [])
    ∧ c4State.stop_timer.receiveMsg_WakeupMessage (1, 2) =
        (c4State.stop_timer, []) := by
  have h := wakeup_stale_spec c4State 2 5
  have h2 := wakeup_stale_spec c4State 1 2
  exact ⟨h.1 (by decide), h2.2.2.1 (by decide)⟩

end Storage
